import Mathlib

/-!
Verification development for the `beats_and_shapes` repository.

The repository holds two independent Python client scripts:

* `comfy_gen.py` (Flow A): submits a video-generation job description to a
  local server (`POST /prompt`), extracts the `prompt_id` from the response,
  polls `GET /history/{prompt_id}` every 5 seconds until the identifier
  appears as a key of the response mapping, then prints the filename of every
  artifact found under the `videos` slot of each output node.  The whole body
  sits inside one `try/except Exception` that prints `Error: {e}`.

* `generate_music.py` (Flow B): reads three positional command-line
  arguments (API key, prompt, filename stem), sends one authenticated POST to
  a remote music API, writes the binary response body to `<stem>.mp3` on
  HTTP 200, and prints the status code and body text otherwise.

The embedding below models Python values returned by `json.loads` as the
inductive type `JValue`, Python's dynamic `in` / subscript / iteration
operators as `Except`-valued functions (an exception is an `Except.error`),
and each script's observable behaviour as a trace of events (requests,
sleeps, printed lines) plus an exit code and, for Flow B, a file-system map.
Network responses are supplied by an environment, since the scripts' only
inputs are HTTP responses and command-line arguments.
-/

/-- A Python value as produced by `json.loads`: JSON objects become `dict`,
arrays become `list`, plus strings, integers, booleans and `None`. -/
inductive JValue where
  | str (s : String)
  | num (n : Int)
  | bool (b : Bool)
  | null
  | arr (l : List JValue)
  | obj (fields : List (String × JValue))

mutual

/-- Structural equality on `JValue` (Python `==` on JSON-decoded values). -/
def jvalBeq : JValue → JValue → Bool
  | .str a, .str b => a == b
  | .num a, .num b => a == b
  | .bool a, .bool b => a == b
  | .null, .null => true
  | .arr a, .arr b => jvalListBeq a b
  | .obj a, .obj b => jvalFieldsBeq a b
  | _, _ => false

/-- Elementwise equality of lists of values. -/
def jvalListBeq : List JValue → List JValue → Bool
  | [], [] => true
  | x :: xs, y :: ys => jvalBeq x y && jvalListBeq xs ys
  | _, _ => false

/-- Entrywise equality of dict field lists. -/
def jvalFieldsBeq : List (String × JValue) → List (String × JValue) → Bool
  | [], [] => true
  | (k, v) :: xs, (k', v') :: ys => k == k' && jvalBeq v v' && jvalFieldsBeq xs ys
  | _, _ => false

end

instance : BEq JValue := ⟨jvalBeq⟩

/-- First binding of a key in a `dict`'s field list (Python dicts from
`json.loads` have unique keys, so "first" is exact). -/
def lookupField (fields : List (String × JValue)) (k : String) : Option JValue :=
  match fields with
  | [] => none
  | (k', v) :: rest => if k' = k then some v else lookupField rest k

/-- Test whether the char list `p` is an initial segment of `h`. -/
def chPre : List Char → List Char → Bool
  | [], _ => true
  | _ :: _, [] => false
  | a :: as, b :: bs => a == b && chPre as bs

/-- Test whether the char list `p` occurs contiguously inside `h`
(Python's substring containment `p in h` for strings). -/
def chSub (pat : List Char) : List Char → Bool
  | [] => chPre pat []
  | c :: rest => chPre pat (c :: rest) || chSub pat rest

/-- The Python exceptions the two scripts can raise: `KeyError`,
`TypeError`, `IndexError`, network errors from `urllib`, and JSON decode
errors.  Only the class and message matter for the printed diagnostics. -/
inductive PyErr where
  | keyError (k : String)
  | typeError (msg : String)
  | indexError (msg : String)
  | urlError (msg : String)
  | jsonError (msg : String)
deriving DecidableEq

/-- Render `str(e)` for an exception, as interpolated by the handler's
diagnostic print.
Python renders a `KeyError` as the `repr` of the missing key. -/
def pyErrStr : PyErr → String
  | .keyError k => "'" ++ k ++ "'"
  | .typeError msg => msg
  | .indexError msg => msg
  | .urlError msg => msg
  | .jsonError msg => msg

mutual

/-- Python `repr` (used when a value is interpolated inside a container). -/
def pyRepr : JValue → String
  | .str s => "'" ++ s ++ "'"
  | .num n => toString n
  | .bool true => "True"
  | .bool false => "False"
  | .null => "None"
  | .arr l => "[" ++ pyReprList l ++ "]"
  | .obj fields => "\x7b" ++ pyReprFields fields ++ "\x7d"

/-- Comma-separated `repr`s of list elements. -/
def pyReprList : List JValue → String
  | [] => ""
  | [v] => pyRepr v
  | v :: vs => pyRepr v ++ ", " ++ pyReprList vs

/-- Comma-separated `repr`s of dict entries. -/
def pyReprFields : List (String × JValue) → String
  | [] => ""
  | [(k, v)] => "'" ++ k ++ "': " ++ pyRepr v
  | (k, v) :: rest => "'" ++ k ++ "': " ++ pyRepr v ++ ", " ++ pyReprFields rest

end

/-- Python `str`, as used by f-string interpolation: strings stay bare,
everything else renders like `repr`. -/
def pyStr : JValue → String
  | .str s => s
  | v => pyRepr v

/-- Python's `member in container`.  For a `dict` it tests key membership,
for a `list` element membership, for a `str` substring containment (the
member must itself be a string, else `TypeError`); for the remaining types
the `in` operator raises `TypeError`. -/
def pyContains (member container : JValue) : Except PyErr Bool :=
  match container with
  | .obj fields => .ok (fields.any fun kv => jvalBeq member (JValue.str kv.1))
  | .arr l => .ok (l.contains member)
  | .str s =>
    match member with
    | .str t => .ok (chSub t.toList s.toList)
    | _ => .error (.typeError "'in <string>' requires string as left operand")
  | _ => .error (.typeError "argument of type is not iterable")

/-- Python's subscript `container[key]`.  Dicts require a hashable key and
raise `KeyError` when absent; lists require an integer index (booleans count
as 0/1, negative indices count from the end); strings index to a one-char
string; other receivers raise `TypeError`. -/
def pySubscript (container key : JValue) : Except PyErr JValue :=
  match container with
  | .obj fields =>
    match key with
    | .str k =>
      match lookupField fields k with
      | some v => .ok v
      | none => .error (.keyError k)
    | .num n => .error (.keyError (toString n))
    | .bool b => .error (.keyError (if b then "True" else "False"))
    | .null => .error (.keyError "None")
    | _ => .error (.typeError "unhashable type")
  | .arr l =>
    match key with
    | .num n =>
      let j : Int := if n < 0 then (l.length : Int) + n else n
      if h : 0 ≤ j ∧ j.toNat < l.length then .ok (l.get ⟨j.toNat, h.2⟩)
      else .error (.indexError "list index out of range")
    | .bool b =>
      let j := if b then 1 else 0
      if h : j < l.length then .ok (l.get ⟨j, h⟩)
      else .error (.indexError "list index out of range")
    | _ => .error (.typeError "list indices must be integers or slices")
  | .str s =>
    match key with
    | .num n =>
      let j : Int := if n < 0 then (s.length : Int) + n else n
      if h : 0 ≤ j ∧ j.toNat < s.toList.length then
        .ok (.str (String.singleton (s.toList.get ⟨j.toNat, h.2⟩)))
      else .error (.indexError "string index out of range")
    | _ => .error (.typeError "string indices must be integers")
  | _ => .error (.typeError "object is not subscriptable")

/-- Python's `for x in v`: a `list` yields its elements, a `dict` its keys,
a `str` its characters as one-char strings; other values raise
`TypeError`. -/
def pyIter : JValue → Except PyErr (List JValue)
  | .arr l => .ok l
  | .obj fields => .ok (fields.map fun kv => JValue.str kv.1)
  | .str s => .ok (s.toList.map fun c => JValue.str (String.singleton c))
  | _ => .error (.typeError "object is not iterable")

/-- One observable action of `comfy_gen.py`: an HTTP POST with its JSON
body, an HTTP GET, a `time.sleep`, or a printed line. -/
inductive Event where
  | post (url : String) (body : JValue)
  | get (url : String)
  | sleepEv (secs : Nat)
  | printLine (s : String)

/-- Recognize GET events (status polls). -/
def isGet : Event → Bool
  | .get _ => true
  | _ => false

/-- Recognize POST events (job submissions). -/
def isPost : Event → Bool
  | .post _ _ => true
  | _ => false

/-- Recognize printed lines that carry the broad handler's diagnostic. -/
def isErrorLine : Event → Bool
  | .printLine s => chPre "Error: ".toList s.toList
  | _ => false

/-! ## Flow A: `comfy_gen.py` -/

/-- The module-level `workflow` dict of `comfy_gen.py`, transcribed. -/
def workflow : JValue :=
  .obj [
    ("1", .obj [
      ("inputs", .obj [
        ("model", .str "wan2.5-t2v-preview"),
        ("prompt", .str "Minimalist game studio logo splash, 16:9 at 480p. The entire frame is solid black. In the center, a wide, single-line logo with the word BadMadBrax is shown. Directly beneath it, a thin rectangular outline with the same width acts like an underline and contains the smaller, squat and slightly elongated word GAMES. Both are centered and fill most of the horizontal space. All letters are solid neon colors in vibrant cyan and molten pink, with some letter edges and curves shaped like circular saw blades. There are no extra visible shapes such as triangles or squares inside the letters. The logo gently pulses in brightness and slightly scales in and out in time with a quiet, distant EDM beat, moving smoothly. The camera stays almost perfectly still, with only tiny micro-movements."),
        ("size", .str "480p: 16:9 (832x480)"),
        ("duration", .num 5),
        ("seed", .num 42),
        ("prompt_extend", .bool true)
      ]),
      ("class_type", .str "WanTextToVideoApi")
    ]),
    ("2", .obj [
      ("inputs", .obj [
        ("video", .arr [.str "1", .num 0]),
        ("filename_prefix", .str "splash_gen"),
        ("format", .str "mp4"),
        ("codec", .str "h264")
      ]),
      ("class_type", .str "SaveVideo")
    ])
  ]

/-- The submission endpoint of `queue_prompt`. -/
def promptUrl : String := "http://127.0.0.1:8000/prompt"

/-- The status endpoint `f"http://127.0.0.1:8000/history/{prompt_id}"` of
`check_status`, with the identifier interpolated by `str`. -/
def historyUrl (prompt_id : JValue) : String :=
  "http://127.0.0.1:8000/history/" ++ pyStr prompt_id

/-- The script's environment: what each network call returns.  `submit` is
the parsed body of the one `POST /prompt` (or the exception `urlopen` /
`json.loads` raised); `polls i` is the parsed body of the `i`-th
`GET /history/{prompt_id}` (or its exception). -/
structure FlowAEnv where
  submit : Except PyErr JValue
  polls : Nat → Except PyErr JValue

/-- Model of `queue_prompt(prompt)`: serialize the prompt payload, POST it to the
local endpoint, and return the JSON-decoded response (the environment
supplies the decoded value or the exception). -/
def queue_prompt (env : FlowAEnv) (prompt : JValue) : List Event × Except PyErr JValue :=
  ([.post promptUrl (.obj [("prompt", prompt)])], env.submit)

/-- Model of `check_status(prompt_id)`: GET the history endpoint for the identifier
and return the JSON-decoded response supplied by the environment. -/
def check_status (resp : Except PyErr JValue) (prompt_id : JValue) :
    List Event × Except PyErr JValue :=
  ([.get (historyUrl prompt_id)], resp)

/-- The `while True:` polling loop of the module body: call `check_status`;
if `prompt_id in history` the loop ends with that history, otherwise
`time.sleep(5)` and retry.  `fuel` bounds how many iterations we observe
(the script itself has no bound): `.ok none` means the loop was still
running after `fuel` iterations, `.ok (some h)` that it terminated with
history `h`, `.error e` that an iteration raised. -/
def pollLoop (polls : Nat → Except PyErr JValue) (prompt_id : JValue) :
    Nat → List Event × Except PyErr (Option JValue)
  | 0 => ([], .ok none)
  | fuel + 1 =>
    let (trG, resp) := check_status (polls 0) prompt_id
    match resp with
    | .error e => (trG, .error e)
    | .ok history =>
      match pyContains prompt_id history with
      | .error e => (trG, .error e)
      | .ok true => (trG, .ok (some history))
      | .ok false =>
        let (trRest, r) := pollLoop (fun n => polls (n + 1)) prompt_id fuel
        (trG ++ [.sleepEv 5] ++ trRest, r)

/-- The inner loop printing one `Video saved as:` line per descriptor, over
an already-materialized iteration list. -/
def printVideos : List JValue → List Event × Except PyErr Unit
  | [] => ([], .ok ())
  | video :: rest =>
    match pySubscript video (.str "filename") with
    | .error e => ([], .error e)
    | .ok fn =>
      let (tr, r) := printVideos rest
      (.printLine ("Video saved as: " ++ pyStr fn) :: tr, r)

/-- One node of the extraction loop:
`if 'videos' in outputs[node_id]: for video in outputs[node_id]['videos']: ...`
applied to the slot `outputs[node_id]`. -/
def processSlot (slot : JValue) : List Event × Except PyErr Unit :=
  match pyContains (.str "videos") slot with
  | .error e => ([], .error e)
  | .ok false => ([], .ok ())
  | .ok true =>
    match pySubscript slot (.str "videos") with
    | .error e => ([], .error e)
    | .ok videos =>
      match pyIter videos with
      | .error e => ([], .error e)
      | .ok l => printVideos l

/-- The node loop: subscript each node's slot out of `outputs`
and process it, accumulating the printed lines. -/
def extractLoop (outputs : JValue) : List JValue → List Event × Except PyErr Unit
  | [] => ([], .ok ())
  | node_id :: rest =>
    match pySubscript outputs node_id with
    | .error e => ([], .error e)
    | .ok slot =>
      let (tr1, r1) := processSlot slot
      match r1 with
      | .error e => (tr1, .error e)
      | .ok _ =>
        let (tr2, r2) := extractLoop outputs rest
        (tr1 ++ tr2, r2)

/-- The whole result-extraction loop over `outputs` (lines 51-54). -/
def extractOutputs (outputs : JValue) : List Event × Except PyErr Unit :=
  match pyIter outputs with
  | .error e => ([], .error e)
  | .ok node_ids => extractLoop outputs node_ids

/-- The body of the `try:` block (lines 40-56): queue the workflow, read
`result['prompt_id']`, poll until the identifier appears, then print the
produced filenames.  Returns the event trace and either the exception the
body raised, or `true` when the body ran to completion, or `false` when the
polling loop was still running after `fuel` iterations. -/
def flowABody (env : FlowAEnv) (fuel : Nat) : List Event × Except PyErr Bool :=
  let tr0 : List Event := [.printLine "Queuing generation..."]
  let (trQ, res) := queue_prompt env workflow
  match res with
  | .error e => (tr0 ++ trQ, .error e)
  | .ok result =>
    match pySubscript result (.str "prompt_id") with
    | .error e => (tr0 ++ trQ, .error e)
    | .ok prompt_id =>
      let tr1 := tr0 ++ trQ ++
        [.printLine ("Prompt queued! ID: " ++ pyStr prompt_id),
         .printLine "Waiting for completion (this may take a few minutes)..."]
      let (trL, r) := pollLoop env.polls prompt_id fuel
      match r with
      | .error e => (tr1 ++ trL, .error e)
      | .ok none => (tr1 ++ trL, .ok false)
      | .ok (some history) =>
        let tr2 := tr1 ++ trL ++ [.printLine "Generation complete!"]
        match pySubscript history prompt_id with
        | .error e => (tr2, .error e)
        | .ok recd =>
          match pySubscript recd (.str "outputs") with
          | .error e => (tr2, .error e)
          | .ok outputs =>
            let (trE, rE) := extractOutputs outputs
            match rE with
            | .error e => (tr2 ++ trE, .error e)
            | .ok _ => (tr2 ++ trE, .ok true)

/-- Outcome of one run of the script: its trace, its process exit code, and
whether the body finished (`false` = still inside the unbounded loop when
the observation bound ran out). -/
structure RunResult where
  events : List Event
  exitCode : Nat
  finished : Bool

/-- The whole module (lines 39-58): the body wrapped in
`except Exception as e: print(f"Error: {e}")`.  Every exception becomes one
printed line and the process exits normally (code 0). -/
def flowAMain (env : FlowAEnv) (fuel : Nat) : RunResult :=
  match flowABody env fuel with
  | (tr, .ok b) => ⟨tr, 0, b⟩
  | (tr, .error e) => ⟨tr ++ [.printLine ("Error: " ++ pyErrStr e)], 0, true⟩

/-! ## Flow B: `generate_music.py` -/

/-- The HTTP response handed back by `requests.post`: status code, raw
binary body (`response.content`, a byte list), and decoded text body
(`response.text`). -/
structure HttpResponse where
  status_code : Nat
  content : List Nat
  text : String

/-- One outgoing POST of Flow B: its URL, its headers, and its JSON body. -/
structure PostRequest where
  url : String
  headers : List (String × String)
  body : JValue

/-- A file system: filename to byte content.  `open(name, "wb")` followed by
one `write` creates or truncates `name` and replaces its content wholesale. -/
def writeFile (fs : String → Option (List Nat)) (name : String) (content : List Nat) :
    String → Option (List Nat) :=
  fun n => if n = name then some content else fs n

/-- Outcome of one run of `generate_music.py`: printed lines, the POSTs
sent, the resulting file system and the process exit code. -/
structure FlowBResult where
  prints : List String
  requests : List PostRequest
  fs : String → Option (List Nat)
  exitCode : Nat

/-- The fixed remote endpoint of Flow B. -/
def musicUrl : String := "https://api.elevenlabs.io/v1/text-to-music"

/-- The whole of `generate_music.py`, as a function of `sys.argv` (element 0
is the program name, as in Python), the response `requests.post` returns,
and the initial file system: if `len(sys.argv) < 4` print usage and
`sys.exit(1)` before any network call; otherwise read `sys.argv[1..3]`,
send one POST, and either write `<filename>.mp3` (status 200) or print the
status code and body text (any other status). -/
def generate_music (argv : List String) (resp : HttpResponse)
    (fs0 : String → Option (List Nat)) : FlowBResult :=
  if argv.length < 4 then
    { prints := ["Usage: python generate_music.py <API_KEY> <PROMPT> <FILENAME>"],
      requests := [],
      fs := fs0,
      exitCode := 1 }
  else
    let api_key := argv.getD 1 ""
    let prompt := argv.getD 2 ""
    let filename := argv.getD 3 ""
    let req : PostRequest :=
      { url := musicUrl,
        headers := [("xi-api-key", api_key), ("Content-Type", "application/json")],
        body := .obj [("text", .str prompt)] }
    let pr0 := ["Generating music for: " ++ prompt ++ "..."]
    if resp.status_code = 200 then
      { prints := pr0 ++ ["Success! Saved to " ++ filename ++ ".mp3"],
        requests := [req],
        fs := writeFile fs0 (filename ++ ".mp3") resp.content,
        exitCode := 0 }
    else
      { prints := pr0 ++ ["Error: " ++ toString resp.status_code, resp.text],
        requests := [req],
        fs := fs0,
        exitCode := 0 }

/-! ## Spec-side helpers: the shape of a "good" result record -/

/-- An artifact descriptor the extraction loop can print without raising:
a dict carrying a `filename` field. -/
def goodVideo (v : JValue) : Bool :=
  match v with
  | .obj vf => (lookupField vf "filename").isSome
  | _ => false

/-- The print event the extraction loop emits for one artifact descriptor,
when the descriptor has a `filename` field. -/
def videoPrint (v : JValue) : Option Event :=
  match v with
  | .obj vf =>
    (lookupField vf "filename").map fun fn =>
      Event.printLine ("Video saved as: " ++ pyStr fn)
  | _ => none

/-- A well-shaped output slot: a dict whose `videos` entry, when present,
is a list of artifact descriptors each carrying a `filename` field. -/
def goodSlot (slot : JValue) : Bool :=
  match slot with
  | .obj fields =>
    match lookupField fields "videos" with
    | none => true
    | some (.arr vids) => vids.all goodVideo
    | some _ => false
  | _ => false

/-- The filename lines the extraction loop prints for one output slot. -/
def slotPrints (slot : JValue) : List Event :=
  match slot with
  | .obj fields =>
    match lookupField fields "videos" with
    | some (.arr vids) => vids.filterMap videoPrint
    | _ => []
  | _ => []

/-- Number of artifact descriptors in one output slot's `videos` list. -/
def slotCount (slot : JValue) : Nat :=
  match slot with
  | .obj fields =>
    match lookupField fields "videos" with
    | some (.arr vids) => vids.length
    | _ => 0
  | _ => 0

/-- Whether an output slot carries a `videos` entry at all. -/
def hasVideosKey (slot : JValue) : Bool :=
  match slot with
  | .obj fields => (lookupField fields "videos").isSome
  | _ => false

/-! ## Concrete scenarios used to instantiate the theorems -/

/-- A status response that does not mention the identifier `id1`. -/
def absentHistory : JValue := .obj [("other", .null)]

/-- A status response in which job `id1` is complete, with one produced
video file. -/
def readyHistory : JValue :=
  .obj [("id1", .obj [("outputs", .obj
    [("2", .obj [("videos", .arr
      [.obj [("filename", .str "splash_gen_00001.mp4"), ("subfolder", .str "")]])])])])]

/-- Poll responses: three responses without the identifier, then one with
it (the spec's own example scenario). -/
def polls3 : Nat → Except PyErr JValue :=
  fun i => if i < 3 then .ok absentHistory else .ok readyHistory

/-- An environment whose submit response carries an empty-string
`prompt_id`, and whose history immediately lists the empty identifier. -/
def envEmptyId : FlowAEnv :=
  ⟨.ok (.obj [("prompt_id", .str "")]),
   fun _ => .ok (.obj [("", .obj [("outputs", .obj [])])])⟩

/-- An environment whose submit response lacks the `prompt_id` field. -/
def envMissingId : FlowAEnv :=
  ⟨.ok (.obj [("node_errors", .obj [])]), fun _ => .ok .null⟩

/-- An environment in which the submission POST itself fails with a
network error. -/
def envNetFail : FlowAEnv :=
  ⟨.error (.urlError "Connection refused"), fun _ => .ok .null⟩

/-- A completed record's output slots: node `2` produced one video, node
`3` produced only text. -/
def sampleSlots : List (String × JValue) :=
  [("2", .obj [("videos", .arr
      [.obj [("filename", .str "splash_gen_00001.mp4"), ("subfolder", .str "")]]),
    ("fps", .num 16)]),
   ("3", .obj [("text", .arr [.str "done"])])]

/-! ## Theorems -/

/-- Number of GET events in the expected polling trace. -/
theorem countP_isGet_pollTrace (k : Nat) (u : String) :
    (((List.replicate k [Event.get u, Event.sleepEv 5]).flatten
      ++ [Event.get u]).countP isGet) = k + 1 := by
  induction k with
  | zero => simp [List.countP_cons, isGet]
  | succ k ih =>
    rw [List.replicate_succ, List.flatten_cons, List.append_assoc, List.countP_append, ih]
    simp [List.countP_cons, isGet]
    omega

/-- C1. For every sequence of poll responses, the polling loop terminates
as soon as a response mapping contains the submitted job identifier as a key,
performing exactly one status GET per prior identifier-absent response plus
one final GET: with `k` identifier-absent responses followed by one response
containing the identifier, any observation bound above `k` sees exactly the
trace of `k` GET-then-sleep rounds plus one final GET, the loop stopping with
that final history; in particular the number of GETs is `k + 1`. -/
theorem pollLoop_terminates_on_found (prompt_id : JValue)
    (polls : Nat → Except PyErr JValue) (k : Nat) (hk : JValue)
    (habs : ∀ i, i < k → ∃ h, polls i = .ok h ∧ pyContains prompt_id h = .ok false)
    (hfound : polls k = .ok hk)
    (hcont : pyContains prompt_id hk = .ok true) :
    ∀ fuel, k < fuel →
      pollLoop polls prompt_id fuel =
        ((List.replicate k [Event.get (historyUrl prompt_id), Event.sleepEv 5]).flatten
          ++ [Event.get (historyUrl prompt_id)], .ok (some hk)) ∧
      ((pollLoop polls prompt_id fuel).1.countP isGet) = k + 1 := by
  induction k generalizing polls with
  | zero =>
    intro fuel hf
    obtain ⟨f, rfl⟩ : ∃ f, fuel = f + 1 := ⟨fuel - 1, by omega⟩
    have hstep : pollLoop polls prompt_id (f + 1) =
        ([Event.get (historyUrl prompt_id)], .ok (some hk)) := by
      simp [pollLoop, check_status, hfound, hcont]
    exact ⟨by simpa using hstep, by rw [hstep]; simp [List.countP_cons, isGet]⟩
  | succ k ih =>
    intro fuel hf
    obtain ⟨f, rfl⟩ : ∃ f, fuel = f + 1 := ⟨fuel - 1, by omega⟩
    obtain ⟨h0, hp0, hc0⟩ := habs 0 (Nat.succ_pos k)
    have ihA := ih (fun n => polls (n + 1))
      (fun i hi => habs (i + 1) (by omega)) hfound f (by omega)
    have hstep : pollLoop polls prompt_id (f + 1) =
        ((List.replicate (k + 1) [Event.get (historyUrl prompt_id), Event.sleepEv 5]).flatten
          ++ [Event.get (historyUrl prompt_id)], .ok (some hk)) := by
      simp [pollLoop, check_status, hp0, hc0, ihA.1, List.replicate_succ]
    exact ⟨hstep, by rw [hstep]; exact countP_isGet_pollTrace (k + 1) _⟩

/-- Witness for C1: three "not ready" responses then one "ready" response
yield exactly four GETs and then the loop stops. -/
theorem pollLoop_terminates_on_found_witness :
    pollLoop polls3 (.str "id1") 4 =
      ((List.replicate 3 [Event.get (historyUrl (.str "id1")), Event.sleepEv 5]).flatten
        ++ [Event.get (historyUrl (.str "id1"))], .ok (some readyHistory)) ∧
    ((pollLoop polls3 (.str "id1") 4).1.countP isGet) = 3 + 1 :=
  pollLoop_terminates_on_found (.str "id1") polls3 3 readyHistory
    (fun i hi => ⟨absentHistory, by simp [polls3, hi], rfl⟩)
    (by simp [polls3]) rfl 4 (by omega)

/-- C8. While the job identifier is absent from every status response,
the polling loop never stops: for every observation bound `fuel`, the loop
is still running after `fuel` iterations, each consisting of one GET
followed by a sleep of the fixed 5-unit interval -- there is no attempt
cap and no timeout. -/
theorem pollLoop_retries_forever (prompt_id : JValue)
    (polls : Nat → Except PyErr JValue)
    (habs : ∀ i, ∃ h, polls i = .ok h ∧ pyContains prompt_id h = .ok false) :
    ∀ fuel, pollLoop polls prompt_id fuel =
      ((List.replicate fuel [Event.get (historyUrl prompt_id), Event.sleepEv 5]).flatten,
       .ok none) := by
  intro fuel
  induction fuel generalizing polls with
  | zero => simp [pollLoop]
  | succ f ih =>
    obtain ⟨h0, hp0, hc0⟩ := habs 0
    have ihA := ih (fun n => polls (n + 1)) (fun i => habs (i + 1))
    simp [pollLoop, check_status, hp0, hc0, ihA, List.replicate_succ]

/-- Witness for C8: an environment that never lists the identifier keeps
the loop running through (for instance) three observed iterations. -/
theorem pollLoop_retries_forever_witness :
    pollLoop (fun _ => .ok absentHistory) (.str "id1") 3 =
      ((List.replicate 3 [Event.get (historyUrl (.str "id1")), Event.sleepEv 5]).flatten,
       .ok none) :=
  pollLoop_retries_forever (.str "id1") (fun _ => .ok absentHistory)
    (fun _ => ⟨absentHistory, rfl, rfl⟩) 3

/-- Key membership as tested by `'videos' in slot` coincides with
`lookupField` finding a binding. -/
theorem any_key_eq_lookupField (fields : List (String × JValue)) (k : String) :
    (fields.any fun kv => jvalBeq (.str k) (.str kv.1))
      = (lookupField fields k).isSome := by
  induction fields with
  | nil => rfl
  | cons p rest ih =>
    obtain ⟨k', v⟩ := p
    simp only [jvalBeq] at ih
    by_cases hk : k' = k
    · subst hk
      simp [lookupField, jvalBeq]
    · have h1 : (k == k') = false := beq_eq_false_iff_ne.mpr (Ne.symm hk)
      simp [lookupField, hk, jvalBeq, h1, ih]

/-- On a list of well-shaped artifact descriptors, the inner print loop
prints one line per descriptor and raises nothing. -/
theorem printVideos_of_good (vids : List JValue) (h : vids.all goodVideo = true) :
    printVideos vids = (vids.filterMap videoPrint, .ok ()) := by
  induction vids with
  | nil => rfl
  | cons v rest ih =>
    simp only [List.all_cons, Bool.and_eq_true] at h
    obtain ⟨hv, hrest⟩ := h
    cases v with
    | obj vf =>
      simp only [goodVideo] at hv
      obtain ⟨fn, hfn⟩ := Option.isSome_iff_exists.mp hv
      simp [printVideos, pySubscript, hfn, videoPrint, ih hrest]
    | str s => simp [goodVideo] at hv
    | num n => simp [goodVideo] at hv
    | bool b => simp [goodVideo] at hv
    | null => simp [goodVideo] at hv
    | arr l => simp [goodVideo] at hv

/-- On a well-shaped slot, the per-node body prints exactly the slot's
filename lines and raises nothing. -/
theorem processSlot_of_good (slot : JValue) (h : goodSlot slot = true) :
    processSlot slot = (slotPrints slot, .ok ()) := by
  cases slot with
  | obj fields =>
    cases hv : lookupField fields "videos" with
    | none =>
      simp [processSlot, pyContains, any_key_eq_lookupField, hv, slotPrints]
    | some w =>
      cases w with
      | arr vids =>
        have hall : vids.all goodVideo = true := by
          simpa [goodSlot, hv] using h
        simp [processSlot, pyContains, any_key_eq_lookupField, hv, pySubscript,
          pyIter, printVideos_of_good vids hall, slotPrints]
      | str s => simp [goodSlot, hv] at h
      | num n => simp [goodSlot, hv] at h
      | bool b => simp [goodSlot, hv] at h
      | null => simp [goodSlot, hv] at h
      | obj g => simp [goodSlot, hv] at h
  | str s => simp [goodSlot] at h
  | num n => simp [goodSlot] at h
  | bool b => simp [goodSlot] at h
  | null => simp [goodSlot] at h
  | arr l => simp [goodSlot] at h

/-- The node loop over a key list whose subscripts all succeed with
well-shaped slots prints the concatenation of the slots' filename lines. -/
theorem extractLoop_of_slots (outputs : JValue) (slots : List (String × JValue))
    (hsub : ∀ p ∈ slots, pySubscript outputs (.str p.1) = .ok p.2)
    (hgood : ∀ p ∈ slots, goodSlot p.2 = true) :
    extractLoop outputs (slots.map fun p => .str p.1) =
      ((slots.map fun p => slotPrints p.2).flatten, .ok ()) := by
  induction slots with
  | nil => rfl
  | cons p rest ih =>
    obtain ⟨k, v⟩ := p
    have h1 := hsub (k, v) (List.mem_cons_self _ _)
    have h2 := hgood (k, v) (List.mem_cons_self _ _)
    have ihA := ih (fun q hq => hsub q (List.mem_cons_of_mem _ hq))
      (fun q hq => hgood q (List.mem_cons_of_mem _ hq))
    simp [extractLoop, h1, processSlot_of_good v h2, ihA]

/-- In a dict with pairwise-distinct keys, subscripting by any entry's key
returns that entry's value. -/
theorem lookupField_of_nodup (slots : List (String × JValue))
    (hnd : (slots.map Prod.fst).Nodup) :
    ∀ p ∈ slots, lookupField slots p.1 = some p.2 := by
  induction slots with
  | nil => intro p hp; simp at hp
  | cons q rest ih =>
    obtain ⟨k, v⟩ := q
    simp only [List.map_cons, List.nodup_cons] at hnd
    obtain ⟨hk, hnd'⟩ := hnd
    intro p hp
    rcases List.mem_cons.mp hp with h | h
    · subst h; simp [lookupField]
    · have hne : k ≠ p.1 := fun he => hk (he ▸ List.mem_map_of_mem Prod.fst h)
      simp [lookupField, hne, ih hnd' p h]

/-- A list of well-shaped descriptors yields one print event each. -/
theorem filterMap_videoPrint_length (vids : List JValue)
    (hall : vids.all goodVideo = true) :
    (vids.filterMap videoPrint).length = vids.length := by
  induction vids with
  | nil => rfl
  | cons x rest ih =>
    simp only [List.all_cons, Bool.and_eq_true] at hall
    obtain ⟨hx, hrest⟩ := hall
    cases x with
    | obj xf =>
      simp only [goodVideo] at hx
      obtain ⟨fn, hfn⟩ := Option.isSome_iff_exists.mp hx
      simp [videoPrint, hfn, ih hrest]
    | str s => simp [goodVideo] at hx
    | num n => simp [goodVideo] at hx
    | bool b => simp [goodVideo] at hx
    | null => simp [goodVideo] at hx
    | arr l => simp [goodVideo] at hx

/-- Per-slot print count equals the slot's artifact count when the slot is
well shaped. -/
theorem slotPrints_length (slot : JValue) (h : goodSlot slot = true) :
    (slotPrints slot).length = slotCount slot := by
  cases slot with
  | obj fields =>
    cases hv : lookupField fields "videos" with
    | none => simp [slotPrints, slotCount, hv]
    | some w =>
      cases w with
      | arr vids =>
        have hall : vids.all goodVideo = true := by simpa [goodSlot, hv] using h
        simp [slotPrints, slotCount, hv, filterMap_videoPrint_length vids hall]
      | str s => simp [goodSlot, hv] at h
      | num n => simp [goodSlot, hv] at h
      | bool b => simp [goodSlot, hv] at h
      | null => simp [goodSlot, hv] at h
      | obj g => simp [goodSlot, hv] at h
  | str s => simp [goodSlot] at h
  | num n => simp [goodSlot] at h
  | bool b => simp [goodSlot] at h
  | null => simp [goodSlot] at h
  | arr l => simp [goodSlot] at h

/-- A slot without a `videos` entry contributes no printed line. -/
theorem slotPrints_of_no_videos (slot : JValue) (h : hasVideosKey slot = false) :
    slotPrints slot = [] := by
  cases slot with
  | obj fields =>
    simp only [hasVideosKey] at h
    have hnone : lookupField fields "videos" = none := by
      cases hv : lookupField fields "videos" with
      | none => rfl
      | some w => rw [hv] at h; simp at h
    simp [slotPrints, hnone]
  | str s => rfl
  | num n => rfl
  | bool b => rfl
  | null => rfl
  | arr l => rfl

/-- C2. For every completed result record whose output slots are dicts
with distinct node keys and whose `videos` entries (when present) are lists
of descriptors carrying a `filename` field, result extraction prints exactly
one filename line per artifact descriptor (the concatenation of the slots'
filename lines, whose length is the total artifact count), raises no error,
and prints zero lines when no slot has a `videos` entry. -/
theorem extractOutputs_one_line_per_artifact (slots : List (String × JValue))
    (hnd : (slots.map Prod.fst).Nodup)
    (hgood : ∀ p ∈ slots, goodSlot p.2 = true) :
    extractOutputs (.obj slots) = ((slots.map fun p => slotPrints p.2).flatten, .ok ()) ∧
    ((slots.map fun p => slotPrints p.2).flatten.length
        = (slots.map fun p => slotCount p.2).sum) ∧
    ((∀ p ∈ slots, hasVideosKey p.2 = false) →
      (extractOutputs (.obj slots)).1 = []) := by
  have hsub : ∀ p ∈ slots, pySubscript (.obj slots) (.str p.1) = .ok p.2 := by
    intro p hp
    simp [pySubscript, lookupField_of_nodup slots hnd p hp]
  have hmain : extractOutputs (.obj slots)
      = ((slots.map fun p => slotPrints p.2).flatten, .ok ()) := by
    simpa [extractOutputs, pyIter] using extractLoop_of_slots (.obj slots) slots hsub hgood
  refine ⟨hmain, ?_, ?_⟩
  · rw [List.length_flatten, List.map_map]
    exact congrArg List.sum (List.map_congr_left fun p hp =>
      slotPrints_length p.2 (hgood p hp))
  · intro hnone
    rw [hmain]
    rw [List.flatten_eq_nil_iff]
    intro l hl
    rcases List.mem_map.mp hl with ⟨p, hp, rfl⟩
    exact slotPrints_of_no_videos p.2 (hnone p hp)

/-- Witness for C2: a record with one video-producing node and one
text-only node yields exactly one filename line. -/
theorem extractOutputs_one_line_per_artifact_witness :
    extractOutputs (.obj sampleSlots)
      = ([.printLine "Video saved as: splash_gen_00001.mp4"], .ok ()) ∧
    ((sampleSlots.map fun p => slotPrints p.2).flatten.length
        = (sampleSlots.map fun p => slotCount p.2).sum) := by
  have hg : ∀ p ∈ sampleSlots, goodSlot p.2 = true := by
    intro p hp
    simp only [sampleSlots, List.mem_cons, List.not_mem_nil, or_false] at hp
    rcases hp with rfl | rfl <;> rfl
  have h := extractOutputs_one_line_per_artifact sampleSlots (by decide) hg
  exact ⟨h.1, h.2.1⟩

/-- The polling loop never issues a POST. -/
theorem pollLoop_no_post (prompt_id : JValue) (polls : Nat → Except PyErr JValue) :
    ∀ fuel, ((pollLoop polls prompt_id fuel).1.countP isPost) = 0 := by
  intro fuel
  induction fuel generalizing polls with
  | zero => rfl
  | succ f ih =>
    rcases hp : polls 0 with e | h
    · simp [pollLoop, check_status, hp, List.countP_cons, isPost]
    · rcases hc : pyContains prompt_id h with e | b
      · simp [pollLoop, check_status, hp, hc, List.countP_cons, isPost]
      · cases b
        · simp [pollLoop, check_status, hp, hc, List.countP_append,
            List.countP_cons, isPost, ih (fun n => polls (n + 1))]
        · simp [pollLoop, check_status, hp, hc, List.countP_cons, isPost]

/-- The inner print loop never issues a POST. -/
theorem printVideos_no_post : ∀ vids : List JValue,
    ((printVideos vids).1.countP isPost) = 0
  | [] => rfl
  | v :: rest => by
    rcases hf : pySubscript v (.str "filename") with e | fn
    · simp [printVideos, hf]
    · simp [printVideos, hf, List.countP_cons, isPost, printVideos_no_post rest]

/-- Per-slot extraction never issues a POST. -/
theorem processSlot_no_post (slot : JValue) :
    ((processSlot slot).1.countP isPost) = 0 := by
  rcases hc : pyContains (.str "videos") slot with e | b
  · simp [processSlot, hc]
  · cases b
    · simp [processSlot, hc]
    · rcases hs : pySubscript slot (.str "videos") with e | videos
      · simp [processSlot, hc, hs]
      · rcases hi : pyIter videos with e | l
        · simp [processSlot, hc, hs, hi]
        · simp [processSlot, hc, hs, hi, printVideos_no_post l]

/-- The node loop never issues a POST. -/
theorem extractLoop_no_post (outputs : JValue) : ∀ nids : List JValue,
    ((extractLoop outputs nids).1.countP isPost) = 0
  | [] => rfl
  | nid :: rest => by
    rcases hs : pySubscript outputs nid with e | slot
    · simp [extractLoop, hs]
    · rcases hps : processSlot slot with ⟨tr1, r1⟩
      have h1 := processSlot_no_post slot
      rw [hps] at h1
      rcases r1 with e | u
      · simp [extractLoop, hs, hps, h1]
      · simp [extractLoop, hs, hps, List.countP_append, h1,
          extractLoop_no_post outputs rest]

/-- Result extraction never issues a POST. -/
theorem extractOutputs_no_post (outputs : JValue) :
    ((extractOutputs outputs).1.countP isPost) = 0 := by
  rcases hi : pyIter outputs with e | nids
  · simp [extractOutputs, hi]
  · simp [extractOutputs, hi, extractLoop_no_post outputs nids]

/-- The `try:` body sends exactly one POST, whatever the environment does. -/
theorem flowABody_one_post (env : FlowAEnv) (fuel : Nat) :
    ((flowABody env fuel).1.countP isPost) = 1 := by
  rcases hs : env.submit with e | result
  · simp [flowABody, queue_prompt, hs, List.countP_cons, isPost]
  · rcases hpi : pySubscript result (.str "prompt_id") with e | prompt_id
    · simp [flowABody, queue_prompt, hs, hpi, List.countP_cons, isPost]
    · rcases hpl : pollLoop env.polls prompt_id fuel with ⟨trL, r⟩
      have hL := pollLoop_no_post prompt_id env.polls fuel
      rw [hpl] at hL
      rcases r with e | o
      · simp [flowABody, queue_prompt, hs, hpi, hpl, List.countP_append,
          List.countP_cons, isPost, hL]
      · rcases o with _ | history
        · simp [flowABody, queue_prompt, hs, hpi, hpl, List.countP_append,
            List.countP_cons, isPost, hL]
        · rcases hh : pySubscript history prompt_id with e | recd
          · simp [flowABody, queue_prompt, hs, hpi, hpl, hh, List.countP_append,
              List.countP_cons, isPost, hL]
          · rcases ho : pySubscript recd (.str "outputs") with e | outputs
            · simp [flowABody, queue_prompt, hs, hpi, hpl, hh, ho,
                List.countP_append, List.countP_cons, isPost, hL]
            · rcases he : extractOutputs outputs with ⟨trE, rE⟩
              have hE := extractOutputs_no_post outputs
              rw [he] at hE
              rcases rE with e | u
              · simp [flowABody, queue_prompt, hs, hpi, hpl, hh, ho, he,
                  List.countP_append, List.countP_cons, isPost, hL, hE]
              · simp [flowABody, queue_prompt, hs, hpi, hpl, hh, ho, he,
                  List.countP_append, List.countP_cons, isPost, hL, hE]

/-- Counterexample to C3 as stated: when the submit response carries the
empty string as `prompt_id`, the flow neither obtains a non-empty
identifier nor fails visibly -- it proceeds to polling with the empty
identifier (one GET is issued, no `Error:` line is printed, and the run
completes with exit code 0). -/
theorem flowA_empty_id_polls_anyway :
    pySubscript (JValue.obj [("prompt_id", .str "")]) (.str "prompt_id")
      = .ok (.str "") ∧
    ((flowAMain envEmptyId 1).events.countP isGet) = 1 ∧
    ((flowAMain envEmptyId 1).events.countP isErrorLine) = 0 ∧
    (flowAMain envEmptyId 1).exitCode = 0 := by
  refine ⟨rfl, ?_, ?_, rfl⟩ <;> rfl

/-- C3 (amended). For every environment, the flow sends exactly one
POST.  If the submission raises, or the decoded submit response lacks the
`prompt_id` field, the flow fails visibly: it performs no status GET and
its last output line is the `Error:` diagnostic.  (The code performs no
non-emptiness or type check on the identifier: an empty-string identifier
proceeds to polling, as `flowA_empty_id_polls_anyway` shows.) -/
theorem flowA_one_post_or_visible_failure (env : FlowAEnv) (fuel : Nat) :
    ((flowAMain env fuel).events.countP isPost) = 1 ∧
    (∀ e, env.submit = .error e →
      ((flowAMain env fuel).events.countP isGet) = 0 ∧
      (flowAMain env fuel).events.getLast? =
        some (.printLine ("Error: " ++ pyErrStr e))) ∧
    (∀ r e, env.submit = .ok r → pySubscript r (.str "prompt_id") = .error e →
      ((flowAMain env fuel).events.countP isGet) = 0 ∧
      (flowAMain env fuel).events.getLast? =
        some (.printLine ("Error: " ++ pyErrStr e))) := by
  refine ⟨?_, ?_, ?_⟩
  · rcases hb : flowABody env fuel with ⟨tr, res⟩
    have h1 := flowABody_one_post env fuel
    rw [hb] at h1
    rcases res with e | b <;>
      simp [flowAMain, hb, List.countP_append, List.countP_cons, isPost, h1]
  · intro e hse
    have hb : flowABody env fuel =
        ([.printLine "Queuing generation...",
          .post promptUrl (.obj [("prompt", workflow)])], .error e) := by
      simp [flowABody, queue_prompt, hse]
    constructor
    · simp [flowAMain, hb, List.countP_cons, isGet]
    · simp [flowAMain, hb]
  · intro r e hse hpi
    have hb : flowABody env fuel =
        ([.printLine "Queuing generation...",
          .post promptUrl (.obj [("prompt", workflow)])], .error e) := by
      simp [flowABody, queue_prompt, hse, hpi]
    constructor
    · simp [flowAMain, hb, List.countP_cons, isGet]
    · simp [flowAMain, hb]

/-- Witness for C3 (amended): a submit response without `prompt_id` leads
to one POST, no GET, and a final `Error: 'prompt_id'` line. -/
theorem flowA_one_post_or_visible_failure_witness :
    ((flowAMain envMissingId 1).events.countP isPost) = 1 ∧
    ((flowAMain envMissingId 1).events.countP isGet) = 0 ∧
    (flowAMain envMissingId 1).events.getLast? =
      some (.printLine "Error: 'prompt_id'") := by
  obtain ⟨h1, _, h3⟩ := flowA_one_post_or_visible_failure envMissingId 1
  obtain ⟨hg, hl⟩ := h3 (.obj [("node_errors", .obj [])]) (.keyError "prompt_id") rfl rfl
  exact ⟨h1, hg, hl⟩

/-- C7. Every exception raised anywhere in Flow A's body is caught by
the single top-level handler: whenever the body stops with exception `e`
after trace `tr`, the whole run appends exactly the one diagnostic line
`Error: {e}` and exits normally with code 0. -/
theorem flowA_top_level_handler (env : FlowAEnv) (fuel : Nat)
    (tr : List Event) (e : PyErr)
    (h : flowABody env fuel = (tr, .error e)) :
    flowAMain env fuel =
      ⟨tr ++ [.printLine ("Error: " ++ pyErrStr e)], 0, true⟩ := by
  simp [flowAMain, h]

/-- Witness for C7: a network failure on submission is caught and printed
as `Error: Connection refused`, and the process exits with code 0. -/
theorem flowA_top_level_handler_witness :
    flowAMain envNetFail 1 =
      ⟨[.printLine "Queuing generation...",
        .post promptUrl (.obj [("prompt", workflow)]),
        .printLine "Error: Connection refused"], 0, true⟩ := by
  have h := flowA_top_level_handler envNetFail 1
    [.printLine "Queuing generation...", .post promptUrl (.obj [("prompt", workflow)])]
    (.urlError "Connection refused") rfl
  simpa using h

/-- C4. For every binary response body `B`, if Flow B's POST returns
HTTP status 200 and the filename stem is `out`, then after the run the file
`out.mp3` exists and contains exactly the bytes `B`. -/
theorem generate_music_200_writes_body (prog api_key prompt text : String)
    (B : List Nat) (fs0 : String → Option (List Nat)) :
    (generate_music [prog, api_key, prompt, "out"] ⟨200, B, text⟩ fs0).fs "out.mp3"
      = some B := rfl

/-- C9. On a 200 response Flow B writes only `<stem>.mp3` -- that file
afterwards holds exactly the response body (an existing file of that name
is wholly replaced) and every other filename is untouched. -/
theorem generate_music_200_frame (prog api_key prompt fn text : String)
    (rest : List String) (B : List Nat) (fs0 : String → Option (List Nat)) :
    ((generate_music (prog :: api_key :: prompt :: fn :: rest) ⟨200, B, text⟩ fs0).fs
        (fn ++ ".mp3") = some B) ∧
    (∀ n, n ≠ fn ++ ".mp3" →
      (generate_music (prog :: api_key :: prompt :: fn :: rest) ⟨200, B, text⟩ fs0).fs n
        = fs0 n) := by
  have hlen : ¬ rest.length + 1 + 1 + 1 + 1 < 4 := by omega
  constructor
  · simp [generate_music, hlen, writeFile]
  · intro n hn
    simp [generate_music, hlen, writeFile, hn]

/-- Witness for C9: the pre-existing `out.mp3` is replaced by the body and
an unrelated filename keeps its prior content. -/
theorem generate_music_200_frame_witness :
    ((generate_music ["generate_music.py", "key", "lofi beats", "out"]
        ⟨200, [1, 2, 3], "ok"⟩ (fun _ => some [9])).fs "out.mp3" = some [1, 2, 3]) ∧
    ((generate_music ["generate_music.py", "key", "lofi beats", "out"]
        ⟨200, [1, 2, 3], "ok"⟩ (fun _ => some [9])).fs "track.mp3" = some [9]) := by
  have h := generate_music_200_frame "generate_music.py" "key" "lofi beats" "out" "ok"
    [] [1, 2, 3] (fun _ => some [9])
  exact ⟨h.1, h.2 "track.mp3" (by decide)⟩

/-- C5. For every non-200 response, Flow B leaves the file system
unchanged (creates no file), prints the status code and the response body
text as its diagnostic, raises nothing, and exits normally with code 0. -/
theorem generate_music_non200 (prog api_key prompt fn text : String)
    (rest : List String) (B : List Nat) (status : Nat)
    (fs0 : String → Option (List Nat)) (h : status ≠ 200) :
    (∀ n, (generate_music (prog :: api_key :: prompt :: fn :: rest)
        ⟨status, B, text⟩ fs0).fs n = fs0 n) ∧
    (generate_music (prog :: api_key :: prompt :: fn :: rest)
        ⟨status, B, text⟩ fs0).prints =
      ["Generating music for: " ++ prompt ++ "...",
       "Error: " ++ toString status, text] ∧
    (generate_music (prog :: api_key :: prompt :: fn :: rest)
        ⟨status, B, text⟩ fs0).exitCode = 0 := by
  have hlen : ¬ rest.length + 1 + 1 + 1 + 1 < 4 := by omega
  refine ⟨fun n => ?_, ?_, ?_⟩ <;> simp [generate_music, hlen, h]

/-- Witness for C5: a 401 response writes nothing and prints the code and
the body text. -/
theorem generate_music_non200_witness :
    (generate_music ["generate_music.py", "key", "p", "out"]
        ⟨401, [4, 5], "unauthorized"⟩ (fun _ => none)).fs "out.mp3" = none ∧
    (generate_music ["generate_music.py", "key", "p", "out"]
        ⟨401, [4, 5], "unauthorized"⟩ (fun _ => none)).prints =
      ["Generating music for: p...", "Error: 401", "unauthorized"] ∧
    (generate_music ["generate_music.py", "key", "p", "out"]
        ⟨401, [4, 5], "unauthorized"⟩ (fun _ => none)).exitCode = 0 := by
  have h := generate_music_non200 "generate_music.py" "key" "p" "out" "unauthorized"
    [] [4, 5] 401 (fun _ => none) (by omega)
  exact ⟨h.1 "out.mp3", h.2.1, h.2.2⟩

/-- C6. Invoked with fewer than 3 positional arguments after the
program name, Flow B prints the usage message and exits with code 1 having
sent no request and touched no file. -/
theorem generate_music_usage_exit (prog : String) (args : List String)
    (resp : HttpResponse) (fs0 : String → Option (List Nat))
    (h : args.length < 3) :
    generate_music (prog :: args) resp fs0 =
      { prints := ["Usage: python generate_music.py <API_KEY> <PROMPT> <FILENAME>"],
        requests := [],
        fs := fs0,
        exitCode := 1 } := by
  have hlen : args.length + 1 < 4 := by omega
  simp [generate_music, hlen]

/-- Witness for C6: one missing argument triggers the usage exit. -/
theorem generate_music_usage_exit_witness :
    generate_music ["generate_music.py", "key"] ⟨200, [1], "ok"⟩ (fun _ => none) =
      { prints := ["Usage: python generate_music.py <API_KEY> <PROMPT> <FILENAME>"],
        requests := [],
        fs := fun _ => none,
        exitCode := 1 } :=
  generate_music_usage_exit "generate_music.py" ["key"] ⟨200, [1], "ok"⟩
    (fun _ => none) (by decide)

/-- C10. Flow B reads only the first three positional arguments: with 3
or more arguments, any extra arguments beyond the third leave the whole
behaviour (request sent, prints, file system, exit code) unchanged. -/
theorem generate_music_ignores_extra_args (prog a1 a2 a3 : String)
    (rest : List String) (resp : HttpResponse)
    (fs0 : String → Option (List Nat)) :
    generate_music (prog :: a1 :: a2 :: a3 :: rest) resp fs0 =
      generate_music [prog, a1, a2, a3] resp fs0 := by
  have h1 : ¬ rest.length + 1 + 1 + 1 + 1 < 4 := by omega
  have h2 : ¬ ([prog, a1, a2, a3] : List String).length < 4 := by simp
  simp [generate_music, h1, h2]
